import Mathlib

/-!
Verification of the Stripe MCP server (tool dispatch and response-shaping
layer) against its natural-language specification.

The repository contains two variants of the server:
* `src/src/stripe/index.ts` — zod-validated variant, embedded in the
  `StripeTs` namespace below;
* `src/unnamed/part_000` — manually-validated variant, embedded in the
  `StripeP0` namespace below.

Modelling conventions:
* JavaScript numbers are idealised as rationals `ℚ`, except where the code
  can produce `NaN` (multiplication by `undefined`), which is modelled
  explicitly by the `JsNum` type.
* JSON documents are modelled by the `Json` inductive.  A tool result's
  `text` field is modelled by `TextVal`: `TextVal.plain s` stands for the
  literal string `s`, and `TextVal.jsonDoc j` stands for the string
  `JSON.stringify(j)` (stringification is injective on documents, so
  equalities of `TextVal` mirror equalities of the produced strings).
* The remote provider is an explicit environment (`Env`), and each handler
  returns the list of provider requests it issued alongside its outcome,
  so that "no provider call is made" claims are statable.
* ISO-8601 date parsing (`new Date(s).getTime()`, and zod's `.datetime()`
  format check) is abstracted by a parameter `pd : String → Option ℤ`
  giving the millisecond timestamp of a parseable string.
-/

/-- JSON documents (as produced by the provider / `JSON.stringify`). -/
inductive Json where
  | null : Json
  | num : ℚ → Json
  | str : String → Json
  | arr : List Json → Json
  | obj : List (String × Json) → Json
deriving Repr

/-- Raw (untyped) JavaScript values appearing in a tool-call argument
mapping, before validation. -/
inductive JsVal where
  | num : ℚ → JsVal
  | str : String → JsVal
  | null : JsVal
deriving DecidableEq, Repr

/-- A raw argument mapping: a JavaScript object, keys unique. -/
abbrev RawArgs := List (String × JsVal)

/-- JavaScript numbers including `NaN` (produced e.g. by multiplying a
number with `undefined`). -/
inductive JsNum where
  | num : ℚ → JsNum
  | nan : JsNum
deriving DecidableEq, Repr

/-- JavaScript addition on `JsNum`: `NaN` is absorbing. -/
def JsNum.add : JsNum → JsNum → JsNum
  | .num a, .num b => .num (a + b)
  | _, _ => .nan

/-- JavaScript division of a `JsNum` by a nonzero constant (`/ 100`,
`/ length`): `NaN` propagates. -/
def JsNum.divQ : JsNum → ℚ → JsNum
  | .num a, d => .num (a / d)
  | .nan, _ => .nan

/-- Serialisation of a `JsNum` inside a JSON document:
`JSON.stringify(NaN)` is `null`. -/
def JsNum.toJson : JsNum → Json
  | .num a => .num a
  | .nan => .null

/-- A subscription line item as used by the metrics aggregation:
`unit_amount` is `item.price.unit_amount` (absent price or null
unit_amount modelled as `none`), `quantity` is `item.quantity`
(`none` = the field is absent / `undefined`). -/
structure LineItem where
  unit_amount : Option ℤ
  quantity : Option ℤ
deriving DecidableEq, Repr

/-- An active subscription: its page of line items. -/
structure Subscription where
  items : List LineItem
deriving DecidableEq, Repr

/-- The metrics object built by the `stripe_subscription_metrics` handler. -/
structure SubscriptionMetricsOut where
  active_subscriptions : ℕ
  mrr : JsNum
  average_subscription_value : JsNum
deriving DecidableEq, Repr

/-- JSON serialisation of the metrics object. -/
def SubscriptionMetricsOut.toJson (m : SubscriptionMetricsOut) : Json :=
  .obj [("active_subscriptions", .num m.active_subscriptions),
        ("mrr", m.mrr.toJson),
        ("average_subscription_value", m.average_subscription_value.toJson)]

namespace StripeTs

/-- One line item's contribution in `src/src/stripe/index.ts`:
`(item.price?.unit_amount || 0) * item.quantity`.  When `quantity` is
absent the JavaScript product is `NaN`; `unit_amount || 0` maps both a
missing and a zero `unit_amount` to `0`. -/
def itemMrr (it : LineItem) : JsNum :=
  match it.quantity with
  | none => .nan
  | some q => .num (((it.unit_amount.getD 0) * q : ℤ))

/-- `sub.items.data.reduce((itemTotal, item) => itemTotal + ..., 0)`. -/
def subItemsTotal (s : Subscription) : JsNum :=
  s.items.foldl (fun acc it => acc.add (itemMrr it)) (.num 0)

/-- `subscriptions.data.reduce(...) / 100` — the mrr computed by
`index.ts`. -/
def mrr (subs : List Subscription) : JsNum :=
  (subs.foldl (fun (acc : JsNum) s => acc.add (subItemsTotal s)) (.num 0)).divQ 100

/-- The metrics object computed by the `stripe_subscription_metrics`
case of `index.ts`. -/
def computeMetrics (subs : List Subscription) : SubscriptionMetricsOut :=
  { active_subscriptions := subs.length
    mrr := mrr subs
    average_subscription_value :=
      if subs.length > 0 then (mrr subs).divQ subs.length else .num 0 }

end StripeTs

namespace StripeP0

/-- JavaScript `item.quantity || 1` in `src/unnamed/part_000`: an absent
quantity — and, `0` being falsy, a zero quantity — becomes `1`. -/
def quantityOrOne : Option ℤ → ℤ
  | none => 1
  | some q => if q = 0 then 1 else q

/-- One line item's contribution in `part_000`:
`(item.price.unit_amount || 0) * (item.quantity || 1)`. -/
def itemMrr (it : LineItem) : ℤ :=
  (it.unit_amount.getD 0) * quantityOrOne it.quantity

/-- Per-subscription line-item total in `part_000`. -/
def subItemsTotal (s : Subscription) : ℤ :=
  s.items.foldl (fun acc it => acc + itemMrr it) 0

/-- The mrr computed by `part_000` (never `NaN`). -/
def mrr (subs : List Subscription) : ℚ :=
  ((subs.foldl (fun acc s => acc + subItemsTotal s) 0 : ℤ) : ℚ) / 100

/-- The metrics object computed by the `stripe_subscription_metrics`
case of `part_000`. -/
def computeMetrics (subs : List Subscription) : SubscriptionMetricsOut :=
  { active_subscriptions := subs.length
    mrr := .num (mrr subs)
    average_subscription_value :=
      if subs.length > 0 then .num (mrr subs / subs.length) else .num 0 }

end StripeP0

/-- The total in minor units that the specification's aggregation formula
describes: sum over subscriptions, over line items, of
`unit_amount × quantity` (fields assumed present). -/
def specTotalCents (subs : List Subscription) : ℤ :=
  (subs.map (fun s =>
    (s.items.map (fun it => (it.unit_amount.getD 0) * (it.quantity.getD 0))).sum)).sum

/-- A provider (Stripe) error as observed by the catch blocks: its `type`
tag, message, optional error code and response headers. -/
structure StripeError where
  etype : String
  message : String
  code : Option String
  headers : List (String × String)
deriving DecidableEq, Repr

/-- The error values that can reach the catch block of `handleToolCall`:
a zod validation error, a provider error, or a plain `Error(msg)`. -/
inductive JsError where
  | zod : JsError
  | stripe : StripeError → JsError
  | js : String → JsError
deriving DecidableEq, Repr

/-- Outcome of one remote provider invocation as raced against the
timeout guard: the provider settles first with a value, the provider
rejects with a `StripeError`, or the 30s deadline wins. -/
inductive CallOutcome (α : Type) where
  | ok : α → CallOutcome α
  | stripeErr : StripeError → CallOutcome α
  | timeout : CallOutcome α

/-- One bucket of available funds in a balance object. -/
structure BalanceFunds where
  amount : ℤ
  currency : String
deriving DecidableEq, Repr

/-- The balance object returned by `balance.retrieve()` (the fields the
code reads). -/
structure Balance where
  available : List BalanceFunds
deriving DecidableEq, Repr

/-- JSON serialisation of a balance object (for `JSON.stringify(balance)`). -/
def Balance.toJson (b : Balance) : Json :=
  .obj [("available", .arr (b.available.map (fun f =>
    .obj [("amount", .num f.amount), ("currency", .str f.currency)])))]

/-- Validated arguments of `stripe_list_transactions`. -/
structure ListTransactionsParsed where
  limit : Option ℚ
  starting_after : Option String
  ending_before : Option String
deriving DecidableEq, Repr

/-- Validated arguments of `stripe_list_customers`. -/
structure ListCustomersParsed where
  limit : Option ℚ
  starting_after : Option String
  ending_before : Option String
  email : Option String
deriving DecidableEq, Repr

/-- Validated arguments of `stripe_invoice_history`. -/
structure InvoiceHistoryParsed where
  customer : String
  limit : Option ℚ
  starting_after : Option String
  ending_before : Option String
deriving DecidableEq, Repr

/-- Validated arguments of `stripe_subscription_metrics`. -/
structure SubMetricsParsed where
  from_date : Option String
  to_date : Option String
deriving DecidableEq, Repr

/-- A request issued to the remote provider, with the forwarded
parameters.  `balanceProbe` is the `balance.retrieve()` performed inside
`initializeStripe` to test the connection. -/
inductive Request where
  | balanceProbe
  | balanceRetrieve
  | chargesList (a : ListTransactionsParsed)
  | customersList (a : ListCustomersParsed)
  | paymentMethodsList (customer ptype : String)
  | invoicesList (a : InvoiceHistoryParsed)
  | subscriptionsList (gte lte : Option ℤ)
deriving DecidableEq, Repr

/-- The provider environment: whether the connectivity probe succeeds,
and the outcome of each endpoint invocation.  Listing endpoints return
`Option (List Json)` documents — `none` models a malformed response whose
`data` is missing or not an array. -/
structure Env where
  probeOk : Bool
  charges : ListTransactionsParsed → CallOutcome (Option (List Json))
  balance : CallOutcome Balance
  customers : ListCustomersParsed → CallOutcome (Option (List Json))
  paymentMethods : String → CallOutcome (Option (List Json))
  invoices : InvoiceHistoryParsed → CallOutcome (Option (List Json))
  subscriptions : Option ℤ → Option ℤ → CallOutcome (Option (List Subscription))

/-- The string stored in a content item's `text` field: either a literal
string or the stringification `JSON.stringify(j)` of a document `j`. -/
inductive TextVal where
  | plain : String → TextVal
  | jsonDoc : Json → TextVal
deriving Repr

/-- One content item `{ type: "text", text: ... }` of a tool result. -/
structure ContentItem where
  ctype : String
  text : TextVal
deriving Repr

/-- The tool result shape `{ content, isError }`. -/
structure ToolResult where
  content : List ContentItem
  isError : Bool
deriving Repr

/-- What a call to `handleToolCall` does at top level: terminate the
process (`process.exit(1)` inside `initializeStripe`) or resolve with a
tool result.  No constructor models a thrown exception: the embedding
makes explicit that no exception escapes. -/
inductive TopOutcome where
  | exit : TopOutcome
  | result : ToolResult → TopOutcome
deriving Repr

/-- A successful tool result: a single text content item, `isError: false`. -/
def mkOk (tv : TextVal) : ToolResult :=
  { content := [{ ctype := "text", text := tv }], isError := false }

/-- An error tool result: a single text content item, `isError: true`. -/
def mkErr (s : String) : ToolResult :=
  { content := [{ ctype := "text", text := .plain s }], isError := true }

namespace StripeTs

/-- zod `z.string().optional()` on key `k` of a raw argument object:
absent → `none`; a string value → that string; any other value
(including `null`) → validation error. -/
def parseOptStr (args : RawArgs) (k : String) : Except Unit (Option String) :=
  match args.lookup k with
  | none => .ok none
  | some (.str s) => .ok (some s)
  | some _ => .error ()

/-- zod `z.string()` (required) on key `k`. -/
def parseReqStr (args : RawArgs) (k : String) : Except Unit String :=
  match args.lookup k with
  | some (.str s) => .ok s
  | _ => .error ()

/-- zod `z.number().int().positive().optional()` on key `k`. -/
def parseOptPosInt (args : RawArgs) (k : String) : Except Unit (Option ℚ) :=
  match args.lookup k with
  | none => .ok none
  | some (.num q) => if q.den = 1 ∧ 0 < q then .ok (some q) else .error ()
  | some _ => .error ()

/-- zod `z.number().max(100).optional()` on key `k`: any number (integer
or not, positive or not) up to 100 passes. -/
def parseOptMax100 (args : RawArgs) (k : String) : Except Unit (Option ℚ) :=
  match args.lookup k with
  | none => .ok none
  | some (.num q) => if q ≤ 100 then .ok (some q) else .error ()
  | some _ => .error ()

/-- `ListTransactionsSchema.parse` — unknown keys are stripped by zod. -/
def parseListTransactions (args : RawArgs) : Except Unit ListTransactionsParsed := do
  let l ← parseOptPosInt args "limit"
  let sa ← parseOptStr args "starting_after"
  let eb ← parseOptStr args "ending_before"
  pure { limit := l, starting_after := sa, ending_before := eb }

/-- `ListCustomersSchema.parse`: `limit` only capped at 100. -/
def parseListCustomers (args : RawArgs) : Except Unit ListCustomersParsed := do
  let l ← parseOptMax100 args "limit"
  let sa ← parseOptStr args "starting_after"
  let eb ← parseOptStr args "ending_before"
  let em ← parseOptStr args "email"
  pure { limit := l, starting_after := sa, ending_before := eb, email := em }

/-- `GetPaymentMethodsSchema.parse`. -/
def parsePaymentMethods (args : RawArgs) : Except Unit String :=
  parseReqStr args "customer"

/-- `GetInvoiceHistorySchema.parse` (customer required, limit capped
at 100). -/
def parseInvoiceHistory (args : RawArgs) : Except Unit InvoiceHistoryParsed := do
  let c ← parseReqStr args "customer"
  let l ← parseOptMax100 args "limit"
  let sa ← parseOptStr args "starting_after"
  let eb ← parseOptStr args "ending_before"
  pure { customer := c, limit := l, starting_after := sa, ending_before := eb }

/-- zod optional `.datetime()` string on key `k`: the value must be a
string that parses as an ISO-8601 date-time (`pd s` defined). -/
def parseOptDatetime (pd : String → Option ℤ) (args : RawArgs) (k : String) :
    Except Unit (Option String) :=
  match args.lookup k with
  | none => .ok none
  | some (.str s) => if (pd s).isSome then .ok (some s) else .error ()
  | some _ => .error ()

/-- Millisecond timestamp of a (known-parseable) date string. -/
def pdVal (pd : String → Option ℤ) (s : String) : ℤ := (pd s).getD 0

/-- `SubscriptionMetricsSchema.parse`, including the `.refine` that
requires `new Date(from_date) < new Date(to_date)` when both fields are
present. -/
def parseSubMetrics (pd : String → Option ℤ) (args : RawArgs) :
    Except Unit SubMetricsParsed := do
  let f ← parseOptDatetime pd args "from_date"
  let t ← parseOptDatetime pd args "to_date"
  match f, t with
  | some fs, some ts =>
      if pdVal pd fs < pdVal pd ts then
        pure { from_date := some fs, to_date := some ts }
      else .error ()
  | _, _ => pure { from_date := f, to_date := t }

/-- The arguments of tool `name` violate its validation schema: one
predicate per validating tool, mirroring the `parse` call at the head of
each switch case (`stripe_get_balance` never validates, and an unknown
name is not a validation failure). -/
def validationFails (pd : String → Option ℤ) (name : String)
    (args : RawArgs) : Prop :=
  match name with
  | "stripe_list_transactions" => parseListTransactions args = .error ()
  | "stripe_list_customers" => parseListCustomers args = .error ()
  | "stripe_payment_methods" => parsePaymentMethods args = .error ()
  | "stripe_invoice_history" => parseInvoiceHistory args = .error ()
  | "stripe_subscription_metrics" => parseSubMetrics pd args = .error ()
  | _ => False

/-- `Promise.race([call, timeoutPromise])`: a timeout rejects with
`Error("Request timed out")`; a provider rejection carries the
`StripeError`. -/
def raceResult {α : Type} : CallOutcome α → Except JsError α
  | .ok a => .ok a
  | .stripeErr e => .error (.stripe e)
  | .timeout => .error (.js "Request timed out")

/-- The catch block of `handleToolCall` in `index.ts`: rate-limit
provider errors first (surfacing the `retry-after` header, `undefined`
if absent), then zod errors (`error.format()` interpolates as
`[object Object]`), then other provider errors, then anything else. -/
def catchResult : JsError → ToolResult
  | .stripe e =>
      if e.etype = "rate_limit" then
        mkErr ("Rate limit exceeded. Retry after " ++
          ((e.headers.lookup "retry-after").getD "undefined") ++ " seconds.")
      else
        mkErr ("Stripe API Error v0.1.0: " ++ e.message ++ " (code: " ++
          e.code.getD "undefined" ++ ")")
  | .zod => mkErr "Invalid arguments: [object Object]"
  | .js msg => mkErr ("Error v0.1.0: " ++ msg)

/-- The `try` body of `handleToolCall` in `index.ts`: the switch over the
tool name.  Returns the provider requests issued and either a successful
tool result or the error reaching the catch block. -/
def toolBody (pd : String → Option ℤ) (name : String) (args : RawArgs)
    (env : Env) : List Request × Except JsError ToolResult :=
  match name with
  | "stripe_list_transactions" =>
      match parseListTransactions args with
      | .error _ => ([], .error .zod)
      | .ok p =>
          ([.chargesList p],
            match raceResult (env.charges p) with
            | .error e => .error e
            | .ok none => .error (.js "Invalid response from Stripe API (list transactions)")
            | .ok (some docs) => .ok (mkOk (.jsonDoc (.arr docs))))
  | "stripe_get_balance" =>
      ([.balanceRetrieve],
        match raceResult env.balance with
        | .error e => .error e
        | .ok b => .ok (mkOk (.jsonDoc b.toJson)))
  | "stripe_list_customers" =>
      match parseListCustomers args with
      | .error _ => ([], .error .zod)
      | .ok p =>
          ([.customersList p],
            match raceResult (env.customers p) with
            | .error e => .error e
            | .ok none => .error (.js "Invalid response from Stripe API (list customers)")
            | .ok (some docs) => .ok (mkOk (.jsonDoc (.arr docs))))
  | "stripe_payment_methods" =>
      match parsePaymentMethods args with
      | .error _ => ([], .error .zod)
      | .ok c =>
          ([.paymentMethodsList c "card"],
            match raceResult (env.paymentMethods c) with
            | .error e => .error e
            | .ok none => .error (.js "Invalid response from Stripe API (payment methods)")
            | .ok (some docs) => .ok (mkOk (.jsonDoc (.arr docs))))
  | "stripe_invoice_history" =>
      match parseInvoiceHistory args with
      | .error _ => ([], .error .zod)
      | .ok p =>
          ([.invoicesList p],
            match raceResult (env.invoices p) with
            | .error e => .error e
            | .ok none => .error (.js "Invalid response from Stripe API (invoice history)")
            | .ok (some docs) => .ok (mkOk (.jsonDoc (.arr docs))))
  | "stripe_subscription_metrics" =>
      match parseSubMetrics pd args with
      | .error _ => ([], .error .zod)
      | .ok p =>
          let gte := p.from_date.map (fun s => Int.fdiv (pdVal pd s) 1000)
          let lte := p.to_date.map (fun s => Int.fdiv (pdVal pd s) 1000)
          ([.subscriptionsList gte lte],
            match raceResult (env.subscriptions gte lte) with
            | .error e => .error e
            | .ok none => .error (.js "Invalid response from Stripe API (subscription metrics)")
            | .ok (some subs) => .ok (mkOk (.jsonDoc (computeMetrics subs).toJson)))
  | _ => ([], .error (.js ("Unknown tool: " ++ name)))

/-- `handleToolCall` of `index.ts`: `initializeStripe()` first issues the
connectivity probe (terminating the process if it fails), then the switch
body runs and any error it throws is converted by the catch block. -/
def handleToolCall (pd : String → Option ℤ) (name : String) (args : RawArgs)
    (env : Env) : List Request × TopOutcome :=
  if env.probeOk then
    (.balanceProbe :: (toolBody pd name args env).1,
      .result (match (toolBody pd name args env).2 with
        | .ok r => r
        | .error e => catchResult e))
  else ([.balanceProbe], .exit)

end StripeTs

namespace StripeP0

/-- JavaScript truthiness of `fromDate` / `toDate` in
`if (fromDate && toDate && fromDate > toDate)`: `undefined` and `0` are
falsy. -/
def truthyNum : Option ℤ → Bool
  | none => false
  | some n => n ≠ 0

/-- The catch block of `handleToolCall` in `part_000`: a rate-limit
branch, then a single generic branch `Error v0.1.0: <message>`. -/
def catchResult : JsError → ToolResult
  | .stripe e =>
      if e.etype = "rate_limit" then
        mkErr ("Rate limit exceeded. Retry after " ++
          ((e.headers.lookup "retry-after").getD "undefined") ++ " seconds.")
      else mkErr ("Error v0.1.0: " ++ e.message)
  | .zod => mkErr "Error v0.1.0: zod is not used in this variant"
  | .js msg => mkErr ("Error v0.1.0: " ++ msg)

/-- One optional date argument of `part_000`'s metrics case:
`if (parsedArgs.from_date) { ... new Date(s).getTime() ... }` — the
guard is JavaScript truthiness (an empty string is skipped like an
absent field), an unparseable string throws, and a parseable one is
floored to seconds. -/
def dateField (pd : String → Option ℤ) (v : Option String) (errMsg : String) :
    Except JsError (Option ℤ) :=
  match v with
  | none => .ok none
  | some s =>
      if s = "" then .ok none
      else
        match pd s with
        | none => .error (.js errMsg)
        | some ms => .ok (some (Int.fdiv ms 1000))

/-- The `try` body of the `stripe_subscription_metrics` case of
`part_000`'s `handleToolCall`: manual date parsing, the manual order
check `fromDate && toDate && fromDate > toDate`, then the listing call
and the aggregation. -/
def subMetricsBody (pd : String → Option ℤ)
    (from_date to_date : Option String)
    (subsCall : Option ℤ → Option ℤ → CallOutcome (Option (List Subscription))) :
    List Request × Except JsError ToolResult :=
  match dateField pd from_date "Invalid 'from_date'.  Use ISO 8601 format." with
  | .error e => ([], .error e)
  | .ok fromSecs =>
    match dateField pd to_date "Invalid 'to_date'. Use ISO 8601 format." with
    | .error e => ([], .error e)
    | .ok toSecs =>
      if truthyNum fromSecs ∧ truthyNum toSecs ∧ fromSecs.getD 0 > toSecs.getD 0 then
        ([], .error (.js "'from_date' must be before 'to_date'."))
      else
        ([.subscriptionsList fromSecs toSecs],
          match StripeTs.raceResult (subsCall fromSecs toSecs) with
          | .error e => .error e
          | .ok none => .error (.js "Invalid response from Stripe API (subscription metrics)")
          | .ok (some subs) => .ok (mkOk (.jsonDoc (computeMetrics subs).toJson)))

/-- The `stripe_subscription_metrics` case of `part_000`'s
`handleToolCall` with its catch block (the connectivity probe and the
`args as SubscriptionMetricsArgs` cast happen before; the cast performs
no validation, so the two optional string fields are taken directly). -/
def handleSubMetrics (pd : String → Option ℤ)
    (from_date to_date : Option String)
    (subsCall : Option ℤ → Option ℤ → CallOutcome (Option (List Subscription))) :
    List Request × ToolResult :=
  ((subMetricsBody pd from_date to_date subsCall).1,
    match (subMetricsBody pd from_date to_date subsCall).2 with
    | .ok r => r
    | .error e => catchResult e)

/-- A charge record, with the fields the dashboard summary reads
(`created` in seconds since the epoch). -/
structure Charge where
  amount : ℤ
  currency : String
  created : ℤ
deriving DecidableEq, Repr

/-- Requests issued by the dashboard resource read handler. -/
inductive ReadReq where
  | balanceProbe
  | balanceRetrieve
  | chargesList (limit : ℚ)
deriving DecidableEq, Repr

/-- Environment of the dashboard read handler.  The two data fetches
either resolve or reject with an error message; `charges` takes the
requested page limit and returns `none` for a response whose `data` is
falsy. -/
structure DashEnv where
  probeOk : Bool
  balance : Except String Balance
  charges : ℚ → Except String (Option (List Charge))

/-- One content item of a resource read result; `isError` is only set on
the error payload. -/
structure ReadContent where
  ctype : String
  text : String
  mimeType : String
  uri : String
  isError : Option Bool
deriving DecidableEq, Repr

/-- Top-level outcome of the read handler: process exit (probe failure
inside `initializeStripe`), a resolved response (contents plus its own
optional `isError` flag), or a thrown error (`Resource not found`). -/
inductive ReadOutcome where
  | exit : ReadOutcome
  | ok : List ReadContent → Option Bool → ReadOutcome
  | thrown : String → ReadOutcome
deriving DecidableEq, Repr

/-- One transaction line of the summary:
``- ${transaction.amount / 100} ${transaction.currency} on ${date}\n``.
`numToStr` abstracts JavaScript number-to-string conversion and
`dateToStr` abstracts `new Date(created * 1000).toLocaleDateString()`. -/
def txLine (numToStr : ℚ → String) (dateToStr : ℤ → String) (t : Charge) : String :=
  "- " ++ numToStr ((t.amount : ℚ) / 100) ++ " " ++ t.currency ++ " on " ++
    dateToStr t.created ++ "\n"

/-- The dashboard summary text built from a balance and a page of
transactions. -/
def summaryText (numToStr : ℚ → String) (dateToStr : ℤ → String)
    (b : Balance) (txs : Option (List Charge)) : String :=
  let balanceAmount : ℚ :=
    match b.available with
    | [] => 0
    | f :: _ => (f.amount : ℚ) / 100
  let balanceCurrency : String :=
    match b.available with
    | [] => ""
    | f :: _ => f.currency
  "Current Balance: " ++ numToStr balanceAmount ++ " " ++ balanceCurrency ++
    "\n\nRecent Transactions:\n" ++
    (match txs with
     | none => ""
     | some ts => String.join (ts.map (txLine numToStr dateToStr)))

/-- `part_000`'s `ReadResourceRequestSchema` handler: for the fixed
dashboard URI it initialises the client (probe), retrieves the balance
and the five most recent charges, and renders the summary; any error in
those fetches is caught and returned as an error-flagged text payload.
Any other URI throws `Resource not found`. -/
def readResource (numToStr : ℚ → String) (dateToStr : ℤ → String)
    (uri : String) (env : DashEnv) : List ReadReq × ReadOutcome :=
  if uri = "stripe://dashboard" then
    if env.probeOk then
      match env.balance with
      | .error msg =>
          ([.balanceProbe, .balanceRetrieve],
            .ok [{ ctype := "text",
                   text := "Error fetching dashboard data: " ++ msg,
                   mimeType := "text/plain", uri := uri, isError := some true }]
              (some true))
      | .ok b =>
          match env.charges 5 with
          | .error msg =>
              ([.balanceProbe, .balanceRetrieve, .chargesList 5],
                .ok [{ ctype := "text",
                       text := "Error fetching dashboard data: " ++ msg,
                       mimeType := "text/plain", uri := uri, isError := some true }]
                  (some true))
          | .ok txs =>
              ([.balanceProbe, .balanceRetrieve, .chargesList 5],
                .ok [{ ctype := "text",
                       text := summaryText numToStr dateToStr b txs,
                       mimeType := "text/plain", uri := uri, isError := none }]
                  none)
    else ([.balanceProbe], .exit)
  else ([], .thrown ("Resource not found: " ++ uri))

end StripeP0

/-! Concrete date parser and provider environments used to instantiate
the theorems below on closed inputs. -/

/-- A concrete date parser recognising two ISO-8601 instants. -/
def pdFix : String → Option ℤ := fun s =>
  if s = "2024-01-01T00:00:00Z" then some 1704067200000
  else if s = "2024-02-01T00:00:00Z" then some 1706745600000
  else none

/-- A healthy provider returning empty pages everywhere. -/
def envOkEmpty : Env :=
  { probeOk := true
    charges := fun _ => .ok (some [])
    balance := .ok ⟨[]⟩
    customers := fun _ => .ok (some [])
    paymentMethods := fun _ => .ok (some [])
    invoices := fun _ => .ok (some [])
    subscriptions := fun _ _ => .ok (some []) }

/-- A provider whose charge listing returns one raw charge document with
a 2000-cent amount. -/
def envCharge2000 : Env :=
  { envOkEmpty with
    charges := fun _ =>
      .ok (some [Json.obj [("amount", Json.num 2000), ("currency", Json.str "usd")]]) }

/-- A provider that rejects the balance retrieval with a rate-limit
error carrying a `retry-after: 30` header. -/
def envRateLimited : Env :=
  { envOkEmpty with
    balance := .stripeErr
      { etype := "rate_limit", message := "Too many requests",
        code := some "rate_limit_exceeded", headers := [("retry-after", "30")] } }

/-- A provider whose charge listing exceeds the 30s deadline. -/
def envTimeout : Env :=
  { envOkEmpty with charges := fun _ => .timeout }

/-- A provider whose charge listing resolves with a malformed response
(missing `data` array). -/
def envMalformed : Env :=
  { envOkEmpty with charges := fun _ => .ok none }

/-- A healthy dashboard environment: a 12345-cent balance and one
2000-cent transaction. -/
def dashEnvOk : StripeP0.DashEnv :=
  { probeOk := true
    balance := .ok ⟨[⟨12345, "usd"⟩]⟩
    charges := fun _ => .ok (some [⟨2000, "usd", 1704067200⟩]) }

/-- A dashboard environment whose charge listing rejects. -/
def dashEnvFail : StripeP0.DashEnv :=
  { dashEnvOk with charges := fun _ => .error "connection reset" }

/-- A concrete number formatter (placeholder for JavaScript
number-to-string conversion). -/
def n2s0 : ℚ → String := fun q => toString q

/-- A concrete date formatter (placeholder for `toLocaleDateString`). -/
def d2s0 : ℤ → String := fun n => toString n

/-! ### Helper lemmas about the metrics folds -/

lemma StripeTs.itemMrr_eq_of_isSome (it : LineItem) (h : it.quantity.isSome) :
    StripeTs.itemMrr it =
      .num (((it.unit_amount.getD 0) * (it.quantity.getD 0) : ℤ)) := by
  obtain ⟨q, hq⟩ := Option.isSome_iff_exists.mp h
  simp [StripeTs.itemMrr, hq]

lemma StripeTs.foldl_items_eq (items : List LineItem)
    (h : ∀ it ∈ items, it.quantity.isSome) (a : ℚ) :
    items.foldl (fun acc it => acc.add (StripeTs.itemMrr it)) (JsNum.num a)
      = .num (a + (((items.map (fun it =>
          (it.unit_amount.getD 0) * (it.quantity.getD 0))).sum : ℤ) : ℚ)) := by
  induction items generalizing a with
  | nil => simp
  | cons x xs ih =>
      have hx : x.quantity.isSome := h x (List.mem_cons_self x xs)
      have hxs : ∀ it ∈ xs, it.quantity.isSome :=
        fun it hit => h it (List.mem_cons_of_mem _ hit)
      rw [List.foldl_cons, StripeTs.itemMrr_eq_of_isSome x hx]
      show xs.foldl _ (JsNum.add (.num a) (.num _)) = _
      rw [show JsNum.add (.num a) (.num (((x.unit_amount.getD 0) * (x.quantity.getD 0) : ℤ) : ℚ))
            = .num (a + (((x.unit_amount.getD 0) * (x.quantity.getD 0) : ℤ) : ℚ)) from rfl,
        ih hxs]
      congr 1
      simp only [List.map_cons, List.sum_cons]
      push_cast
      ring

lemma StripeTs.subItemsTotal_eq (s : Subscription)
    (h : ∀ it ∈ s.items, it.quantity.isSome) :
    StripeTs.subItemsTotal s
      = .num ((((s.items.map (fun it =>
          (it.unit_amount.getD 0) * (it.quantity.getD 0))).sum : ℤ) : ℚ)) := by
  have := StripeTs.foldl_items_eq s.items h 0
  simpa [StripeTs.subItemsTotal] using this

lemma StripeTs.foldl_subs_eq (subs : List Subscription)
    (h : ∀ s ∈ subs, ∀ it ∈ s.items, it.quantity.isSome) (a : ℚ) :
    subs.foldl (fun (acc : JsNum) s => acc.add (StripeTs.subItemsTotal s)) (JsNum.num a)
      = .num (a + ((specTotalCents subs : ℤ) : ℚ)) := by
  induction subs generalizing a with
  | nil => simp [specTotalCents]
  | cons x xs ih =>
      have hx := h x (List.mem_cons_self x xs)
      have hxs : ∀ s ∈ xs, ∀ it ∈ s.items, it.quantity.isSome :=
        fun s hs => h s (List.mem_cons_of_mem _ hs)
      rw [List.foldl_cons, StripeTs.subItemsTotal_eq x hx]
      show xs.foldl _ (JsNum.add (.num a) (.num _)) = _
      rw [show JsNum.add (.num a)
            (.num ((((x.items.map (fun it =>
              (it.unit_amount.getD 0) * (it.quantity.getD 0))).sum : ℤ) : ℚ)))
            = .num (a + (((x.items.map (fun it =>
              (it.unit_amount.getD 0) * (it.quantity.getD 0))).sum : ℤ) : ℚ)) from rfl,
        ih hxs]
      congr 1
      simp only [specTotalCents, List.map_cons, List.sum_cons]
      push_cast
      ring

lemma StripeTs.mrr_eq (subs : List Subscription)
    (h : ∀ s ∈ subs, ∀ it ∈ s.items, it.quantity.isSome) :
    StripeTs.mrr subs = .num ((specTotalCents subs : ℚ) / 100) := by
  have := StripeTs.foldl_subs_eq subs h 0
  simp only [StripeTs.mrr, this, JsNum.divQ, zero_add]

/-! ### Claim theorems -/

/-- **C1.** For every page of active subscriptions (all line items
carrying both `unit_amount` and `quantity`), the
`stripe_subscription_metrics` aggregation of `index.ts` returns
`active_subscriptions` = page length, `mrr` = Σ `unit_amount × quantity`
/ 100, and `average_subscription_value` = `mrr` / count when the count
is positive and `0` for an empty page; in particular the page
`[{items:[{unit_amount:2000, quantity:1}]}, {items:[{unit_amount:500,
quantity:2}]}]` yields `mrr = 30`, `active_subscriptions = 2`,
`average_subscription_value = 15`. -/
theorem subscription_metrics_page_aggregation (subs : List Subscription)
    (h : ∀ s ∈ subs, ∀ it ∈ s.items, it.unit_amount.isSome ∧ it.quantity.isSome) :
    (StripeTs.computeMetrics subs).active_subscriptions = subs.length ∧
    (StripeTs.computeMetrics subs).mrr = .num ((specTotalCents subs : ℚ) / 100) ∧
    (0 < subs.length →
      (StripeTs.computeMetrics subs).average_subscription_value
        = .num ((specTotalCents subs : ℚ) / 100 / subs.length)) ∧
    (subs = [] →
      (StripeTs.computeMetrics subs).average_subscription_value = .num 0) ∧
    StripeTs.computeMetrics
        [⟨[⟨some 2000, some 1⟩]⟩, ⟨[⟨some 500, some 2⟩]⟩]
      = ⟨2, .num 30, .num 15⟩ ∧
    (∀ (pd : String → Option ℤ) (env : Env) (args : RawArgs)
        (p : SubMetricsParsed),
      env.probeOk = true →
      StripeTs.parseSubMetrics pd args = .ok p →
      env.subscriptions
          (p.from_date.map fun s => Int.fdiv (StripeTs.pdVal pd s) 1000)
          (p.to_date.map fun s => Int.fdiv (StripeTs.pdVal pd s) 1000)
        = .ok (some subs) →
      (StripeTs.handleToolCall pd "stripe_subscription_metrics" args env).2
        = .result (mkOk (.jsonDoc (StripeTs.computeMetrics subs).toJson))) := by
  have hq : ∀ s ∈ subs, ∀ it ∈ s.items, it.quantity.isSome :=
    fun s hs it hit => (h s hs it hit).2
  have hm := StripeTs.mrr_eq subs hq
  refine ⟨rfl, hm, ?_, ?_, ?_, ?_⟩
  · intro hlen
    simp only [StripeTs.computeMetrics, hlen, if_pos, hm, JsNum.divQ]
  · intro hnil
    subst hnil
    simp [StripeTs.computeMetrics]
  · simp only [StripeTs.computeMetrics, StripeTs.mrr, StripeTs.subItemsTotal,
      StripeTs.itemMrr, JsNum.add, JsNum.divQ, List.foldl_cons, List.foldl_nil,
      List.length_cons, List.length_nil]
    norm_num
  · intro pd env args p hpr hp hsubs
    simp [StripeTs.handleToolCall, hpr, StripeTs.toolBody, hp, hsubs,
      StripeTs.raceResult]

/-- Witness for `subscription_metrics_page_aggregation` at the concrete
two-subscription page. -/
theorem subscription_metrics_page_aggregation_witness :
    (StripeTs.computeMetrics
        [⟨[⟨some 2000, some 1⟩]⟩, ⟨[⟨some 500, some 2⟩]⟩]).mrr
      = .num ((specTotalCents
          [⟨[⟨some 2000, some 1⟩]⟩, ⟨[⟨some 500, some 2⟩]⟩] : ℚ) / 100) :=
  (subscription_metrics_page_aggregation
    [⟨[⟨some 2000, some 1⟩]⟩, ⟨[⟨some 500, some 2⟩]⟩]
    (by decide)).2.1

/-- **C2.** In `src/src/stripe/index.ts` the mrr reduce multiplies
`(item.price?.unit_amount || 0)` by the raw `item.quantity`; a line item
with a missing quantity therefore contributes `NaN` (poisoning the whole
mrr), not its `unit_amount` — the `|| 1` default the specification
describes exists only in the `part_000` variant, whose aggregation on
the same page yields `mrr = 20`.  A missing `unit_amount` does
contribute `0` in both variants (when the quantity is present). -/
theorem missing_quantity_yields_nan_not_one :
    StripeTs.computeMetrics [⟨[⟨some 2000, none⟩]⟩]
      = ⟨1, .nan, .nan⟩ ∧
    StripeP0.computeMetrics [⟨[⟨some 2000, none⟩]⟩]
      = ⟨1, .num 20, .num 20⟩ ∧
    StripeTs.computeMetrics [⟨[⟨none, some 3⟩]⟩] = ⟨1, .num 0, .num 0⟩ ∧
    StripeP0.computeMetrics [⟨[⟨none, some 3⟩]⟩] = ⟨1, .num 0, .num 0⟩ ∧
    JsNum.nan ≠ .num 20 := by
  refine ⟨rfl, ?_, ?_, ?_, by simp⟩
  · simp only [StripeP0.computeMetrics, StripeP0.mrr, StripeP0.subItemsTotal,
      StripeP0.itemMrr, StripeP0.quantityOrOne, List.foldl_cons, List.foldl_nil,
      List.length_cons, List.length_nil]
    norm_num
  · simp only [StripeTs.computeMetrics, StripeTs.mrr, StripeTs.subItemsTotal,
      StripeTs.itemMrr, JsNum.add, JsNum.divQ, List.foldl_cons, List.foldl_nil,
      List.length_cons, List.length_nil]
    norm_num
  · simp only [StripeP0.computeMetrics, StripeP0.mrr, StripeP0.subItemsTotal,
      StripeP0.itemMrr, StripeP0.quantityOrOne, List.foldl_cons, List.foldl_nil,
      List.length_cons, List.length_nil]
    norm_num

/-- **C10.** The `list_customers` validator of `index.ts` enforces only
the 100 upper bound on `limit`: every rational `limit ≤ 100` — zero,
negative and non-integer values included — validates, and the parsed
value is forwarded unchanged in the `customers.list` request; a
`limit > 100` fails validation. -/
theorem list_customers_limit_only_upper_bound (q : ℚ)
    (pd : String → Option ℤ) (env : Env) (hprobe : env.probeOk = true) :
    (q ≤ 100 →
      StripeTs.parseListCustomers [("limit", .num q)]
        = .ok ⟨some q, none, none, none⟩ ∧
      (StripeTs.handleToolCall pd "stripe_list_customers"
          [("limit", .num q)] env).1
        = [.balanceProbe, .customersList ⟨some q, none, none, none⟩]) ∧
    (100 < q →
      StripeTs.parseListCustomers [("limit", .num q)] = .error ()) := by
  constructor
  · intro hle
    have hp : StripeTs.parseListCustomers [("limit", JsVal.num q)]
        = .ok ⟨some q, none, none, none⟩ := by
      simp [StripeTs.parseListCustomers, StripeTs.parseOptMax100,
        StripeTs.parseOptStr, List.lookup, hle, bind, Except.bind, pure, Except.pure]
    refine ⟨hp, ?_⟩
    simp [StripeTs.handleToolCall, hprobe, StripeTs.toolBody, hp]
  · intro hgt
    simp [StripeTs.parseListCustomers, StripeTs.parseOptMax100,
      StripeTs.parseOptStr, List.lookup, not_le.mpr hgt, bind, Except.bind]

/-- Witness for `list_customers_limit_only_upper_bound` at the negative
non-integer limit `-5/2`. -/
theorem list_customers_limit_only_upper_bound_witness :
    StripeTs.parseListCustomers [("limit", .num (-5/2))]
      = .ok ⟨some (-5/2), none, none, none⟩ ∧
    (StripeTs.handleToolCall pdFix "stripe_list_customers"
        [("limit", .num (-5/2))] envOkEmpty).1
      = [.balanceProbe, .customersList ⟨some (-5/2), none, none, none⟩] :=
  (list_customers_limit_only_upper_bound (-5/2) pdFix envOkEmpty rfl).1
    (by norm_num)

/-- **C9 counterexample.** `stripe_get_balance` called with the
non-empty argument mapping `{limit: 1}` is not rejected: the balance
retrieval is issued and the call succeeds (`isError: false`).  The
handler never invokes `GetBalanceSchema`, so a non-empty mapping does
not produce a validation error. -/
theorem get_balance_nonempty_args_accepted :
    StripeTs.handleToolCall pdFix "stripe_get_balance"
        [("limit", .num 1)] envOkEmpty
      = ([.balanceProbe, .balanceRetrieve],
          .result (mkOk (.jsonDoc (Balance.toJson ⟨[]⟩)))) ∧
    ([("limit", JsVal.num 1)] : RawArgs) ≠ [] ∧
    (mkOk (.jsonDoc (Balance.toJson ⟨[]⟩))).isError = false := by
  refine ⟨?_, by simp, rfl⟩
  simp [StripeTs.handleToolCall, StripeTs.toolBody, StripeTs.raceResult,
    envOkEmpty, mkOk]

/-- **C9 amended.** `stripe_get_balance` ignores its arguments entirely:
the result is independent of the argument mapping, the balance retrieval
is always issued after the probe, and when the provider resolves it the
call succeeds with the serialized balance. -/
theorem get_balance_ignores_args (pd : String → Option ℤ)
    (args args2 : RawArgs) (env : Env) (b : Balance)
    (hprobe : env.probeOk = true) (hbal : env.balance = .ok b) :
    StripeTs.handleToolCall pd "stripe_get_balance" args env
      = StripeTs.handleToolCall pd "stripe_get_balance" args2 env ∧
    StripeTs.handleToolCall pd "stripe_get_balance" args env
      = ([.balanceProbe, .balanceRetrieve],
          .result (mkOk (.jsonDoc b.toJson))) := by
  have h2 : ∀ a : RawArgs, StripeTs.handleToolCall pd "stripe_get_balance" a env
      = ([.balanceProbe, .balanceRetrieve], .result (mkOk (.jsonDoc b.toJson))) := by
    intro a
    simp [StripeTs.handleToolCall, hprobe, StripeTs.toolBody,
      StripeTs.raceResult, hbal]
  exact ⟨(h2 args).trans (h2 args2).symm, h2 args⟩

/-- Witness for `get_balance_ignores_args` with a non-empty and an empty
argument mapping. -/
theorem get_balance_ignores_args_witness :
    StripeTs.handleToolCall pdFix "stripe_get_balance"
        [("customer", .str "cus_1")] envOkEmpty
      = StripeTs.handleToolCall pdFix "stripe_get_balance" [] envOkEmpty :=
  (get_balance_ignores_args pdFix [("customer", .str "cus_1")] []
    envOkEmpty ⟨[]⟩ rfl rfl).1

/-- **C3 counterexample.** `stripe_list_customers` with `limit = 150`
does fail validation, but the connectivity probe (`balance.retrieve()`
inside `initializeStripe`) has already been issued by then: the request
trace is `[balanceProbe]`, not empty, so a provider request is made even
though validation fails. -/
theorem validation_failure_still_probes :
    StripeTs.handleToolCall pdFix "stripe_list_customers"
        [("limit", .num 150)] envOkEmpty
      = ([.balanceProbe],
          .result (mkErr "Invalid arguments: [object Object]")) ∧
    ([Request.balanceProbe] : List Request) ≠ [] := by
  refine ⟨?_, by simp⟩
  have hp : StripeTs.parseListCustomers [("limit", JsVal.num 150)] = .error () := by
    simp [StripeTs.parseListCustomers, StripeTs.parseOptMax100,
      StripeTs.parseOptStr, List.lookup, bind, Except.bind]
    norm_num
  simp [StripeTs.handleToolCall, StripeTs.toolBody, envOkEmpty, hp,
    StripeTs.catchResult]

/-- **C3 amended.** For every tool call whose arguments fail that tool's
validation (any of the five validating tools), the call returns a
validation error (`isError: true`) and no tool-specific provider request
is issued — but the connectivity probe is issued on every call, before
validation runs, so the trace is exactly `[balanceProbe]`. -/
theorem validation_failure_only_probe (pd : String → Option ℤ)
    (name : String) (args : RawArgs) (env : Env)
    (hprobe : env.probeOk = true)
    (hfail : StripeTs.validationFails pd name args) :
    StripeTs.handleToolCall pd name args env
      = ([.balanceProbe],
          .result (mkErr "Invalid arguments: [object Object]")) := by
  unfold StripeTs.validationFails at hfail
  split at hfail <;>
    first
      | exact hfail.elim
      | simp [StripeTs.handleToolCall, hprobe, StripeTs.toolBody, hfail,
          StripeTs.catchResult]

/-- Witness for `validation_failure_only_probe` at `stripe_list_customers`
with `limit = 150`. -/
theorem validation_failure_only_probe_witness :
    StripeTs.handleToolCall pdFix "stripe_list_customers"
        [("limit", .num 150)] envOkEmpty
      = ([.balanceProbe],
          .result (mkErr "Invalid arguments: [object Object]")) :=
  validation_failure_only_probe pdFix "stripe_list_customers"
    [("limit", .num 150)] envOkEmpty rfl
    (by show StripeTs.parseListCustomers _ = .error ()
        simp [StripeTs.parseListCustomers, StripeTs.parseOptMax100,
          StripeTs.parseOptStr, List.lookup, bind, Except.bind]
        norm_num)

/-- **C7.** Every tool call whose body fails with a provider rate-limit
error (and a provider-supplied `retry-after` header `s`) resolves to
`isError: true` with the message
`Rate limit exceeded. Retry after <s> seconds.`, which contains `s`
verbatim. -/
theorem rate_limit_retry_after_surfaced (pd : String → Option ℤ)
    (name : String) (args : RawArgs) (env : Env) (e : StripeError) (s : String)
    (hprobe : env.probeOk = true)
    (hbody : (StripeTs.toolBody pd name args env).2 = .error (.stripe e))
    (htype : e.etype = "rate_limit")
    (hheader : e.headers.lookup "retry-after" = some s) :
    (StripeTs.handleToolCall pd name args env).2
      = .result (mkErr ("Rate limit exceeded. Retry after " ++ s ++ " seconds.")) ∧
    ∃ p q, "Rate limit exceeded. Retry after " ++ s ++ " seconds." = p ++ s ++ q := by
  constructor
  · simp [StripeTs.handleToolCall, hprobe, hbody, StripeTs.catchResult,
      htype, hheader]
  · exact ⟨"Rate limit exceeded. Retry after ", " seconds.", rfl⟩

/-- Witness for `rate_limit_retry_after_surfaced`: a rate-limited
balance retrieval with `retry-after: 30`. -/
theorem rate_limit_retry_after_surfaced_witness :
    (StripeTs.handleToolCall pdFix "stripe_get_balance" [] envRateLimited).2
      = .result (mkErr "Rate limit exceeded. Retry after 30 seconds.") :=
  (rate_limit_retry_after_surfaced pdFix "stripe_get_balance" [] envRateLimited
    { etype := "rate_limit", message := "Too many requests",
      code := some "rate_limit_exceeded", headers := [("retry-after", "30")] }
    "30" rfl
    (by simp [StripeTs.toolBody, envRateLimited, envOkEmpty, StripeTs.raceResult])
    rfl rfl).1

/-- Every error reaching the catch block of `index.ts` is converted to a
single-text-item error result. -/
lemma StripeTs.catchResult_shape (e : JsError) :
    ∃ msg, StripeTs.catchResult e = mkErr msg := by
  cases e with
  | zod => exact ⟨_, rfl⟩
  | js m => exact ⟨_, rfl⟩
  | stripe se =>
      by_cases h : se.etype = "rate_limit" <;>
        simp only [StripeTs.catchResult, h, if_pos, if_neg, reduceIte] <;>
        exact ⟨_, rfl⟩

/-- Every successful branch of the `index.ts` switch builds a
single-text-item success result. -/
lemma StripeTs.toolBody_ok_shape (pd : String → Option ℤ) (name : String)
    (args : RawArgs) (env : Env) (r : ToolResult)
    (h : (StripeTs.toolBody pd name args env).2 = .ok r) :
    ∃ tv, r = mkOk tv := by
  unfold StripeTs.toolBody at h
  dsimp only at h
  repeat' split at h
  all_goals
    first
      | exact ⟨_, (Except.ok.inj h).symm⟩
      | exact absurd h (by simp)

/-- **C8.** For every tool call, given a usable credential, the handler
resolves (never throws, never exits): the result is always a single text
content item; every body failure — validation, provider, timeout,
unknown tool, malformed response — maps to the uniform
`{content: [text], isError: true}` shape; an unknown tool name yields
`Error v0.1.0: Unknown tool: <name>`; and a charge listing whose
response is missing its data array yields the underlying message
`Invalid response from Stripe API (list transactions)`. -/
theorem uniform_error_shape (pd : String → Option ℤ) (name : String)
    (args : RawArgs) (env : Env) (hprobe : env.probeOk = true) :
    (∃ tv b, (StripeTs.handleToolCall pd name args env).2
        = .result { content := [{ ctype := "text", text := tv }], isError := b }) ∧
    (∀ e, (StripeTs.toolBody pd name args env).2 = .error e →
      ∃ msg, (StripeTs.handleToolCall pd name args env).2 = .result (mkErr msg)) ∧
    (name ∉ ["stripe_list_transactions", "stripe_get_balance",
        "stripe_list_customers", "stripe_payment_methods",
        "stripe_invoice_history", "stripe_subscription_metrics"] →
      (StripeTs.handleToolCall pd name args env).2
        = .result (mkErr ("Error v0.1.0: Unknown tool: " ++ name))) ∧
    (∀ p, name = "stripe_list_transactions" →
      StripeTs.parseListTransactions args = .ok p →
      env.charges p = .ok none →
      (StripeTs.handleToolCall pd name args env).2
        = .result (mkErr "Error v0.1.0: Invalid response from Stripe API (list transactions)")) := by
  refine ⟨?_, ?_, ?_, ?_⟩
  · cases hout : (StripeTs.toolBody pd name args env).2 with
    | ok r =>
        obtain ⟨tv, rfl⟩ := StripeTs.toolBody_ok_shape pd name args env r hout
        exact ⟨tv, false, by simp [StripeTs.handleToolCall, hprobe, hout, mkOk]⟩
    | error e =>
        obtain ⟨msg, hc⟩ := StripeTs.catchResult_shape e
        exact ⟨.plain msg, true,
          by simp [StripeTs.handleToolCall, hprobe, hout, hc, mkErr]⟩
  · intro e he
    obtain ⟨msg, hc⟩ := StripeTs.catchResult_shape e
    exact ⟨msg, by simp [StripeTs.handleToolCall, hprobe, he, hc]⟩
  · intro hname
    have hbody : StripeTs.toolBody pd name args env
        = ([], .error (.js ("Unknown tool: " ++ name))) := by
      unfold StripeTs.toolBody
      split <;> simp_all
    simp only [StripeTs.handleToolCall, hprobe, if_pos, hbody, StripeTs.catchResult]
    rw [← String.append_assoc]
    rfl
  · intro p hname hparse hch
    subst hname
    simp [StripeTs.handleToolCall, hprobe, StripeTs.toolBody, hparse, hch,
      StripeTs.raceResult, StripeTs.catchResult]

/-- Witness for `uniform_error_shape`: a malformed charge-listing
response surfaces the underlying message in the uniform error shape. -/
theorem uniform_error_shape_witness :
    (StripeTs.handleToolCall pdFix "stripe_list_transactions" [] envMalformed).2
      = .result (mkErr "Error v0.1.0: Invalid response from Stripe API (list transactions)") :=
  (uniform_error_shape pdFix "stripe_list_transactions" [] envMalformed
    rfl).2.2.2 ⟨none, none, none⟩ rfl
    (by simp [StripeTs.parseListTransactions, StripeTs.parseOptPosInt,
          StripeTs.parseOptStr, List.lookup, bind, Except.bind, pure, Except.pure])
    rfl

/-- **C4 counterexample.** `stripe_list_transactions` serializes the raw
provider documents: a charge whose integer minor-unit `amount` is 2000
is presented as 2000 in the tool result payload, not as `2000 / 100` —
so not every presentation path divides by 100. -/
theorem listing_amount_presented_raw :
    StripeTs.handleToolCall pdFix "stripe_list_transactions" [] envCharge2000
      = ([.balanceProbe, .chargesList ⟨none, none, none⟩],
          .result (mkOk (.jsonDoc (.arr
            [Json.obj [("amount", Json.num 2000), ("currency", Json.str "usd")]])))) ∧
    (2000 : ℚ) ≠ 2000 / 100 := by
  constructor
  · simp [StripeTs.handleToolCall, StripeTs.toolBody,
      StripeTs.parseListTransactions, StripeTs.parseOptPosInt,
      StripeTs.parseOptStr, List.lookup, envCharge2000, envOkEmpty,
      StripeTs.raceResult, bind, Except.bind, pure, Except.pure]
  · norm_num

/-- Eta-expansion of the transaction line renderer. -/
lemma StripeP0.txLine_eta (n2s : ℚ → String) (d2s : ℤ → String) :
    StripeP0.txLine n2s d2s = fun tx =>
      "- " ++ n2s ((tx.amount : ℚ) / 100) ++ " " ++ tx.currency ++ " on " ++
        d2s tx.created ++ "\n" := rfl

/-- **C4 amended.** Division by 100 happens on the dashboard resource
summary (balance and each transaction line) and in the
subscription-metrics mrr; the listing tools, by contrast, serialize the
provider's raw records unchanged, so their payloads keep amounts in
minor units. -/
theorem division_by_100_paths (pd : String → Option ℤ) (env : Env)
    (args : RawArgs) (p : ListTransactionsParsed) (docs : List Json)
    (hprobe : env.probeOk = true)
    (hparse : StripeTs.parseListTransactions args = .ok p)
    (hch : env.charges p = .ok (some docs)) :
    (StripeTs.handleToolCall pd "stripe_list_transactions" args env).2
      = .result (mkOk (.jsonDoc (.arr docs))) ∧
    (∀ (n2s : ℚ → String) (d2s : ℤ → String) (a : ℤ) (cur : String)
        (txs : List StripeP0.Charge),
      StripeP0.summaryText n2s d2s ⟨[⟨a, cur⟩]⟩ (some txs)
        = "Current Balance: " ++ n2s ((a : ℚ) / 100) ++ " " ++ cur ++
          "\n\nRecent Transactions:\n" ++
          String.join (txs.map (fun tx =>
            "- " ++ n2s ((tx.amount : ℚ) / 100) ++ " " ++ tx.currency ++
              " on " ++ d2s tx.created ++ "\n"))) ∧
    (∀ subs : List Subscription,
      (∀ s ∈ subs, ∀ it ∈ s.items, it.quantity.isSome) →
      StripeTs.mrr subs = .num ((specTotalCents subs : ℚ) / 100)) := by
  refine ⟨?_, ?_, fun subs h => StripeTs.mrr_eq subs h⟩
  · simp [StripeTs.handleToolCall, hprobe, StripeTs.toolBody, hparse, hch,
      StripeTs.raceResult]
  · intro n2s d2s a cur txs
    simp [StripeP0.summaryText, StripeP0.txLine_eta]

/-- Witness for `division_by_100_paths` on the concrete 2000-cent raw
charge document. -/
theorem division_by_100_paths_witness :
    (StripeTs.handleToolCall pdFix "stripe_list_transactions" [] envCharge2000).2
      = .result (mkOk (.jsonDoc (.arr
          [Json.obj [("amount", Json.num 2000), ("currency", Json.str "usd")]]))) :=
  (division_by_100_paths pdFix envCharge2000 [] ⟨none, none, none⟩
    [Json.obj [("amount", Json.num 2000), ("currency", Json.str "usd")]]
    rfl
    (by simp [StripeTs.parseListTransactions, StripeTs.parseOptPosInt,
          StripeTs.parseOptStr, List.lookup, bind, Except.bind, pure, Except.pure])
    rfl).1

/-- **C5.** Reading the fixed `stripe://dashboard` resource URI (with a
usable credential) always resolves — never throws: on success the single
plain-text content holds the summary `Current Balance: <amount>
<currency>` followed by one `- <amount> <currency> on <date>` line per
returned transaction (the charge listing is requested with limit 5); on
a fetch failure it returns the error-flagged text payload
`Error fetching dashboard data: <message>`. -/
theorem dashboard_read_summary_and_errors (n2s : ℚ → String)
    (d2s : ℤ → String) (env : StripeP0.DashEnv)
    (hprobe : env.probeOk = true) :
    (∀ m, (StripeP0.readResource n2s d2s "stripe://dashboard" env).2
        ≠ .thrown m) ∧
    (∀ b txs, env.balance = .ok b → env.charges 5 = .ok (some txs) →
      StripeP0.readResource n2s d2s "stripe://dashboard" env
        = ([.balanceProbe, .balanceRetrieve, .chargesList 5],
            .ok [{ ctype := "text",
                   text := StripeP0.summaryText n2s d2s b (some txs),
                   mimeType := "text/plain", uri := "stripe://dashboard",
                   isError := none }] none)) ∧
    (∀ b txs, StripeP0.summaryText n2s d2s b (some txs)
        = "Current Balance: "
            ++ n2s (match b.available with
                    | [] => 0
                    | f :: _ => (f.amount : ℚ) / 100)
            ++ " "
            ++ (match b.available with
                | [] => ""
                | f :: _ => f.currency)
            ++ "\n\nRecent Transactions:\n"
            ++ String.join (txs.map (fun tx =>
                 "- " ++ n2s ((tx.amount : ℚ) / 100) ++ " " ++ tx.currency ++
                   " on " ++ d2s tx.created ++ "\n"))
        ∧ (txs.map (StripeP0.txLine n2s d2s)).length = txs.length) ∧
    (∀ msg, env.balance = .error msg →
      StripeP0.readResource n2s d2s "stripe://dashboard" env
        = ([.balanceProbe, .balanceRetrieve],
            .ok [{ ctype := "text",
                   text := "Error fetching dashboard data: " ++ msg,
                   mimeType := "text/plain", uri := "stripe://dashboard",
                   isError := some true }] (some true))) ∧
    (∀ b msg, env.balance = .ok b → env.charges 5 = .error msg →
      StripeP0.readResource n2s d2s "stripe://dashboard" env
        = ([.balanceProbe, .balanceRetrieve, .chargesList 5],
            .ok [{ ctype := "text",
                   text := "Error fetching dashboard data: " ++ msg,
                   mimeType := "text/plain", uri := "stripe://dashboard",
                   isError := some true }] (some true))) := by
  refine ⟨?_, ?_, ?_, ?_, ?_⟩
  · intro m
    cases hbal : env.balance with
    | error msg => simp [StripeP0.readResource, hprobe, hbal]
    | ok b =>
        cases hch : env.charges 5 with
        | error msg => simp [StripeP0.readResource, hprobe, hbal, hch]
        | ok txs => simp [StripeP0.readResource, hprobe, hbal, hch]
  · intro b txs hbal hch
    simp [StripeP0.readResource, hprobe, hbal, hch]
  · intro b txs
    constructor
    · cases b with
      | mk avail =>
          cases avail with
          | nil => simp [StripeP0.summaryText, StripeP0.txLine_eta]
          | cons f rest => simp [StripeP0.summaryText, StripeP0.txLine_eta]
    · simp
  · intro msg hbal
    simp [StripeP0.readResource, hprobe, hbal]
  · intro b msg hbal hch
    simp [StripeP0.readResource, hprobe, hbal, hch]

/-- Witness for `dashboard_read_summary_and_errors`: the healthy
environment renders the summary, the failing one renders the
error-flagged payload. -/
theorem dashboard_read_summary_and_errors_witness :
    StripeP0.readResource n2s0 d2s0 "stripe://dashboard" dashEnvOk
      = ([.balanceProbe, .balanceRetrieve, .chargesList 5],
          .ok [{ ctype := "text",
                 text := StripeP0.summaryText n2s0 d2s0 ⟨[⟨12345, "usd"⟩]⟩
                   (some [⟨2000, "usd", 1704067200⟩]),
                 mimeType := "text/plain", uri := "stripe://dashboard",
                 isError := none }] none) ∧
    StripeP0.readResource n2s0 d2s0 "stripe://dashboard" dashEnvFail
      = ([.balanceProbe, .balanceRetrieve, .chargesList 5],
          .ok [{ ctype := "text",
                 text := "Error fetching dashboard data: connection reset",
                 mimeType := "text/plain", uri := "stripe://dashboard",
                 isError := some true }] (some true)) :=
  ⟨(dashboard_read_summary_and_errors n2s0 d2s0 dashEnvOk rfl).2.1
      ⟨[⟨12345, "usd"⟩]⟩ [⟨2000, "usd", 1704067200⟩] rfl rfl,
   (dashboard_read_summary_and_errors n2s0 d2s0 dashEnvFail rfl).2.2.2.2
      ⟨[⟨12345, "usd"⟩]⟩ "connection reset" rfl rfl⟩

/-- **C6 counterexample.** In the `part_000` variant, a
`subscription_metrics` call with `from_date` equal to `to_date` is not
rejected: the manual check only fires on `fromDate > toDate`, so the
subscription listing call is issued and the call succeeds
(`isError: false`) — contradicting "any pair with from_date equal to or
after to_date yields a validation error and no listing call". -/
theorem equal_dates_pass_in_part0 :
    StripeP0.handleSubMetrics pdFix
        (some "2024-01-01T00:00:00Z") (some "2024-01-01T00:00:00Z")
        (fun _ _ => .ok (some []))
      = ([.subscriptionsList (some 1704067200) (some 1704067200)],
          mkOk (.jsonDoc (StripeP0.computeMetrics []).toJson)) ∧
    (mkOk (.jsonDoc (StripeP0.computeMetrics []).toJson)).isError = false := by
  constructor
  · simp [StripeP0.handleSubMetrics, StripeP0.subMetricsBody,
      StripeP0.dateField, pdFix, StripeP0.truthyNum, StripeTs.raceResult]
  · rfl

/-- **C6 amended.** With both dates present and parseable: in the
zod-validated `index.ts` variant the `.refine` rejects every pair with
`from_date ≥ to_date` before the listing call (only the probe is
issued); in the `part_000` variant only a strictly later `from_date`
(with both floored-to-seconds timestamps nonzero) is rejected — equal
dates proceed to the listing call — and the rejection is a generic
`Error v0.1.0: 'from_date' must be before 'to_date'.` with no listing
call. -/
theorem date_order_validation (pd : String → Option ℤ) (env : Env)
    (f t : String) (mf mt : ℤ)
    (hprobe : env.probeOk = true)
    (hf : pd f = some mf) (ht : pd t = some mt) (hge : mt ≤ mf)
    (hfne : f ≠ "") (htne : t ≠ "") :
    StripeTs.handleToolCall pd "stripe_subscription_metrics"
        [("from_date", .str f), ("to_date", .str t)] env
      = ([.balanceProbe],
          .result (mkErr "Invalid arguments: [object Object]")) ∧
    (∀ subsCall, Int.fdiv mf 1000 ≠ 0 → Int.fdiv mt 1000 ≠ 0 →
      Int.fdiv mt 1000 < Int.fdiv mf 1000 →
      StripeP0.handleSubMetrics pd (some f) (some t) subsCall
        = ([], mkErr "Error v0.1.0: 'from_date' must be before 'to_date'.")) := by
  constructor
  · have hparse : StripeTs.parseSubMetrics pd
        [("from_date", JsVal.str f), ("to_date", JsVal.str t)] = .error () := by
      simp [StripeTs.parseSubMetrics, StripeTs.parseOptDatetime,
        StripeTs.pdVal, List.lookup, hf, ht, bind, Except.bind, pure,
        Except.pure, not_lt.mpr hge]
    simp [StripeTs.handleToolCall, hprobe, StripeTs.toolBody, hparse,
      StripeTs.catchResult]
  · intro subsCall hfz htz hlt
    simp [StripeP0.handleSubMetrics, StripeP0.subMetricsBody,
      StripeP0.dateField, hf, ht, hfne, htne, StripeP0.truthyNum,
      StripeP0.catchResult, hfz, htz, hlt]

/-- Witness for `date_order_validation`: `from_date` 2024-02-01 after
`to_date` 2024-01-01, rejected by both variants before any listing
call. -/
theorem date_order_validation_witness :
    StripeTs.handleToolCall pdFix "stripe_subscription_metrics"
        [("from_date", .str "2024-02-01T00:00:00Z"),
         ("to_date", .str "2024-01-01T00:00:00Z")] envOkEmpty
      = ([.balanceProbe],
          .result (mkErr "Invalid arguments: [object Object]")) ∧
    StripeP0.handleSubMetrics pdFix
        (some "2024-02-01T00:00:00Z") (some "2024-01-01T00:00:00Z")
        (fun _ _ => .ok (some []))
      = ([], mkErr "Error v0.1.0: 'from_date' must be before 'to_date'.") := by
  have h := date_order_validation pdFix envOkEmpty
    "2024-02-01T00:00:00Z" "2024-01-01T00:00:00Z"
    1706745600000 1704067200000 rfl (by simp [pdFix]) (by simp [pdFix])
    (by norm_num) (by simp) (by simp)
  exact ⟨h.1, h.2 (fun _ _ => .ok (some []))
    (by decide) (by decide) (by decide)⟩
